import Mathlib

/-!
Verification of the task-tracker program in
`src/Basic_Python/tasks_app/tasks_app.py`.

The program keeps an in-memory list of task records, loads them from a
pipe-delimited text file, mutates the list through a numbered menu, and
writes the file back on exit.  We embed the program shallowly:

* Python strings become `Str := List Char`;
* the file becomes its contents, a `Str`;
* `input()` becomes an input stream `Nat → Str` together with a cursor
  counting how many inputs have been consumed;
* `datetime.datetime.now().strftime(...)` becomes a clock stream
  `Nat → Str` sampled at the current cursor;
* each operation that mutates the global `tasks` list becomes a function
  from the list (plus the inputs it reads) to the new list.

Python's `str.strip()` (no argument) removes leading and trailing
whitespace; we model the ASCII whitespace characters, which covers every
string the program itself produces.  `str.split("|")` on a one-character
separator splits at every occurrence without merging, exactly
`List.splitOn '|'`.  `int(...)` accepts surrounding whitespace and an
optional sign and raises `ValueError` otherwise; we model it as an
`Option Int` (digit groups with underscores, a CPython extension, are out
of scope for every claim).
-/

namespace TasksApp

/-- A Python string, viewed as its list of characters. -/
abbrev Str := List Char

/-- ASCII whitespace as stripped by Python `str.strip()`. -/
def isPySpace (c : Char) : Bool :=
  c = ' ' || c = '\t' || c = '\n' || c = '\r' || c = '\x0b' || c = '\x0c'

/-- Model of Python `s.strip()`: drop whitespace from both ends. -/
def pyStrip (s : Str) : Str :=
  ((s.dropWhile isPySpace).reverse.dropWhile isPySpace).reverse

/-- Numeric value of a list of ASCII digits. -/
def digitsVal (ds : Str) : Nat :=
  ds.foldl (fun n c => n * 10 + (c.toNat - ('0').toNat)) 0

/-- Model of Python `int(s)`: optional surrounding whitespace, optional
sign, then at least one ASCII digit; anything else raises `ValueError`,
modelled as `none`. -/
def parseInt (s : Str) : Option Int :=
  match pyStrip s with
  | [] => none
  | '-' :: ds =>
    if !ds.isEmpty && ds.all Char.isDigit then some (-(digitsVal ds : Int)) else none
  | '+' :: ds =>
    if !ds.isEmpty && ds.all Char.isDigit then some ((digitsVal ds : Int)) else none
  | ds =>
    if ds.all Char.isDigit then some ((digitsVal ds : Int)) else none

/-- One task record, the dict
`{"task": ..., "status": ..., "created_at": ..., "status_updated_at": ...}`
built by the program (line 29 and line 62 of the source). -/
structure Task where
  task : Str
  status : Str
  created_at : Str
  status_updated_at : Str
deriving Repr, DecidableEq

/-- `STATUSES = ["Open", "Blocked", "In Progress", "Review", "Done"]`
(line 8 of the source). -/
def STATUSES : List Str :=
  [("Open").data, ("Blocked").data, ("In Progress").data, ("Review").data, ("Done").data]

/-- The pipe-delimited line written for one task by `save_tasks`
(line 39), without the trailing newline:
`f"{task}|{status}|{created_at}|{status_updated_at}"`. -/
def lineOf (t : Task) : Str :=
  t.task ++ '|' :: t.status ++ '|' :: t.created_at ++ '|' :: t.status_updated_at

/-- `save_tasks` (lines 36-39): the file is rewritten with one line per
task, in list order, each terminated by a newline.  The result is the
whole new file contents. -/
def save_tasks (ts : List Task) : Str :=
  (ts.map (fun t => lineOf t ++ ['\n'])).flatten

/-- The body of the `load_tasks` loop for one line (lines 26-34):
`parts = line.strip().split("|")`, and only a 4-field line yields a
task. -/
def parseLine (line : Str) : Option Task :=
  match (pyStrip line).splitOn '|' with
  | [a, b, c, d] => some ⟨a, b, c, d⟩
  | _ => none

/-- `load_tasks` (lines 22-34): iterate over the lines of the file,
appending each well-formed line's task to the (global) list `ts`.
Python's line iteration yields the pieces between newlines; the final
empty piece after a trailing newline strips to the empty string and is
skipped, matching the Python loop, which simply never sees it. -/
def load_tasks (ts : List Task) (content : Str) : List Task :=
  (content.splitOn '\n').foldl
    (fun acc line =>
      match parseLine line with
      | some t => acc ++ [t]
      | none => acc) ts

/-- The confirmation printed by `add_task` (line 63). -/
def addedMessage (name : Str) : Str :=
  ("Task '").data ++ name ++ ("' added successfully with status 'Open'.").data

/-- `add_task` (lines 58-63): strip the entered title; if the result is
empty do nothing, otherwise append a new task with status `Open` and
both timestamps equal to the current time, printing a confirmation that
names the task.  Returns the new list and the printed output. -/
def add_task (ts : List Task) (rawTitle : Str) (now : Str) : List Task × List Str :=
  let name := pyStrip rawTitle
  if name.isEmpty then (ts, [])
  else
    (ts ++ [{ task := name, status := ("Open").data, created_at := now,
              status_updated_at := now }],
     [addedMessage name])

/-- `tasks[index]["status"] = ...; tasks[index]["status_updated_at"] = ...`
(lines 78-79): update the two fields of the record at `index`, leaving
every other record alone. -/
def setStatus : List Task → Nat → Str → Str → List Task
  | [], _, _, _ => []
  | t :: ts, 0, ns, now => { t with status := ns, status_updated_at := now } :: ts
  | t :: ts, i + 1, ns, now => t :: setStatus ts i ns now

/-- The record produced by the two assignments on lines 78-79: the same
task with only `status` and `status_updated_at` replaced. -/
def withStatus (t : Task) (ns now : Str) : Task :=
  { t with status := ns, status_updated_at := now }

/-- `tasks.pop(index)` (line 91): remove and return the record at
`index`. -/
def popAt : List Task → Nat → List Task × Option Task
  | [], _ => ([], none)
  | t :: ts, 0 => (ts, some t)
  | t :: ts, i + 1 => (t :: (popAt ts i).1, (popAt ts i).2)

/-- `update_task_status` (lines 65-82).  If the list is empty it returns
at once, reading no input.  Otherwise it reads a task number; a
`ValueError` from `int` is caught (no change).  Only when the 0-based
index is in range does it read a status number; a `ValueError` is again
caught, and an out-of-range status choice silently changes nothing.
`now` is the clock value used if the update happens; the returned `Nat`
is the new input cursor. -/
def update_task_status (ts : List Task) (now : Str) (inp : Nat → Str) (cur : Nat) :
    List Task × Nat :=
  if ts.isEmpty then (ts, cur)
  else
    match parseInt (inp cur) with
    | none => (ts, cur + 1)
    | some n =>
      if 0 ≤ n - 1 ∧ n - 1 < (ts.length : Int) then
        match parseInt (inp (cur + 1)) with
        | none => (ts, cur + 2)
        | some m =>
          if h : 0 ≤ m - 1 ∧ m - 1 < (STATUSES.length : Int) then
            (setStatus ts (n - 1).toNat (STATUSES.get ⟨(m - 1).toNat, by omega⟩) now,
             cur + 2)
          else (ts, cur + 2)
      else (ts, cur + 1)

/-- `remove_task` (lines 84-94).  If the list is empty it returns at
once, reading no input.  Otherwise it reads a task number; a
`ValueError` is caught, and an in-range 0-based index pops that record
(the popped record is named in the printed confirmation, returned here
as the third component). -/
def remove_task (ts : List Task) (inp : Nat → Str) (cur : Nat) :
    List Task × Nat × Option Task :=
  if ts.isEmpty then (ts, cur, none)
  else
    match parseInt (inp cur) with
    | none => (ts, cur + 1, none)
    | some n =>
      if 0 ≤ n - 1 ∧ n - 1 < (ts.length : Int) then
        ((popAt ts (n - 1).toNat).1, cur + 1, (popAt ts (n - 1).toNat).2)
      else (ts, cur + 1, none)

/-- The mutable state `main` works on: the global `tasks` list and the
contents of the persisted file. -/
structure AppState where
  tasks : List Task
  file : Str
deriving Repr, DecidableEq

/-- The six menu choices recognised by `main` (lines 101-111). -/
def validChoices : List Str :=
  [("1").data, ("2").data, ("3").data, ("4").data, ("5").data, ("6").data]

/-- One iteration of the `while True` loop in `main` (lines 98-114):
read and strip a choice, dispatch.  Choices 1 and 3 only print; choice 2
reads one more input (the title); choices 4 and 5 delegate their own
reading; choice 6 rewrites the file from the task list and exits; any
other choice falls through every `elif` and the menu is shown again.
Returns the new state, the new input cursor, and whether the loop
exited. -/
def menuStep (clock : Nat → Str) (inp : Nat → Str) (cur : Nat) (st : AppState) :
    AppState × Nat × Bool :=
  let choice := pyStrip (inp cur)
  if choice = ("1").data then (st, cur + 1, false)
  else if choice = ("2").data then
    ({ st with tasks := (add_task st.tasks (inp (cur + 1)) (clock (cur + 1))).1 },
     cur + 2, false)
  else if choice = ("3").data then (st, cur + 1, false)
  else if choice = ("4").data then
    ({ st with tasks := (update_task_status st.tasks (clock (cur + 1)) inp (cur + 1)).1 },
     (update_task_status st.tasks (clock (cur + 1)) inp (cur + 1)).2, false)
  else if choice = ("5").data then
    ({ st with tasks := (remove_task st.tasks inp (cur + 1)).1 },
     (remove_task st.tasks inp (cur + 1)).2.1, false)
  else if choice = ("6").data then
    ({ st with file := save_tasks st.tasks }, cur + 1, true)
  else (st, cur + 1, false)

/-- The `while True` loop of `main`, run for at most `fuel` iterations
(the loop itself only ends at choice 6; `fuel` just truncates the
interactive session).  The `Bool` records whether the loop exited via
choice 6. -/
def runMain (clock : Nat → Str) (inp : Nat → Str) :
    Nat → Nat → AppState → AppState × Bool
  | 0, _, st => (st, false)
  | fuel + 1, cur, st =>
    let r := menuStep clock inp cur st
    if r.2.2 then (r.1, true) else runMain clock inp fuel r.2.1 r.1

/-- `main` (lines 96-114): load the tasks from the file, then run the
menu loop. -/
def main_app (clock : Nat → Str) (inp : Nat → Str) (fuel : Nat) (fileContent : Str) :
    AppState × Bool :=
  runMain clock inp fuel 0 ⟨load_tasks [] fileContent, fileContent⟩

/-- Model of `os.path.join(dir, p)` for an absolute `dir` not ending in
a separator and a relative `p`, the only case the program exercises. -/
def os_path_join (dir p : Str) : Str := dir ++ '/' :: p

/-- `handle_file` (lines 10-20), success path: the returned path is the
fixed filename joined onto the directory containing the script
(`os.path.dirname(os.path.abspath(__file__))`), which we take as a
parameter.  The side effect of creating an empty file and the exception
path are irrelevant to the path computation. -/
def handle_file (script_dir : Str) (filename : Str) : Str :=
  os_path_join script_dir filename

/-- How the operating system resolves a path opened by `open`: an
absolute path is used as is, a relative one is resolved against the
current working directory. -/
def resolvePath (cwd p : Str) : Str :=
  if p.head? = some '/' then p else os_path_join cwd p

/-- The filename `main` actually passes to `load_tasks()` (line 97) and
`save_tasks()` (line 112): both calls use the default argument
`"tasks.txt"`, a relative path. -/
def main_file_arg : Str := ("tasks.txt").data

/-- Lexicographic comparison of two strings, the order in which the
program's `YYYY-MM-DD HH:MM:SS` timestamps are chronologically
ordered. -/
def strLe : Str → Str → Bool
  | [], _ => true
  | _ :: _, [] => false
  | a :: as, b :: bs => if a < b then true else if a = b then strLe as bs else false

/-- A task whose status is one of the five labels of `STATUSES`. -/
def statusOk (t : Task) : Bool := decide (t.status ∈ STATUSES)

/-- Every task in the list carries one of the five status labels. -/
def statusInv (ts : List Task) : Bool := ts.all statusOk

/-- A field that survives the persistence round trip wherever it sits in
the line: it contains neither the field delimiter nor a newline. -/
def cleanField (s : Str) : Bool := !(decide ('|' ∈ s)) && !(decide ('\n' ∈ s))

/-- A task whose saved line reloads to exactly the same task: all four
fields are delimiter- and newline-free, and the line is unchanged by
`strip` (no leading whitespace on the title, no trailing whitespace on
`status_updated_at`). -/
def cleanTask (t : Task) : Bool :=
  cleanField t.task && cleanField t.status && cleanField t.created_at &&
    cleanField t.status_updated_at && decide (pyStrip (lineOf t) = lineOf t)

/-! ### Helper lemmas about splitting and loading -/

/-- Splitting a list that does not contain the separator leaves it
whole. -/
lemma splitOn_of_not_mem {c : Char} {l : Str} (h : c ∉ l) : l.splitOn c = [l] := by
  simp only [List.splitOn]
  exact List.splitOnP_eq_single _ _ fun x hx => by
    simp only [beq_iff_eq]
    exact fun e => h (e ▸ hx)

/-- Splitting at the first separator occurrence peels off the prefix
before it. -/
lemma splitOn_sep {c : Char} {a : Str} (r : Str) (h : c ∉ a) :
    (a ++ c :: r).splitOn c = a :: r.splitOn c := by
  simp only [List.splitOn]
  exact List.splitOnP_first _ _
    (fun x hx => by
      simp only [beq_iff_eq]
      exact fun e => h (e ▸ hx)) c (by simp) r

/-- The `load_tasks` fold appends exactly the successfully parsed
lines. -/
lemma foldl_parse (ls : List Str) : ∀ acc : List Task,
    ls.foldl
      (fun acc line =>
        match parseLine line with
        | some t => acc ++ [t]
        | none => acc) acc = acc ++ ls.filterMap parseLine := by
  induction ls with
  | nil => intro acc; simp
  | cons l ls ih =>
    intro acc
    simp only [List.foldl_cons, List.filterMap_cons]
    cases h : parseLine l with
    | none => simp only [h]; exact ih acc
    | some t => simp only [h, ih (acc ++ [t]), List.append_assoc, List.singleton_append]

/-- `load_tasks` appends the parsed lines of the file to the list it is
given. -/
lemma load_tasks_eq (ts : List Task) (content : Str) :
    load_tasks ts content = ts ++ (content.splitOn '\n').filterMap parseLine := by
  unfold load_tasks
  exact foldl_parse _ _

/-- A clean task's saved line (without its newline) parses back to the
same task. -/
lemma parseLine_lineOf {t : Task} (h : cleanTask t = true) : parseLine (lineOf t) = some t := by
  obtain ⟨a, b, c, d⟩ := t
  simp only [cleanTask, cleanField, lineOf, Bool.and_eq_true, Bool.not_eq_true',
    decide_eq_false_iff_not, decide_eq_true_eq] at h
  obtain ⟨⟨⟨⟨⟨ha, -⟩, ⟨hb, -⟩⟩, ⟨hc, -⟩⟩, ⟨hd, -⟩⟩, hstrip⟩ := h
  have hline : lineOf ⟨a, b, c, d⟩ = a ++ '|' :: (b ++ '|' :: (c ++ '|' :: d)) := by
    simp [lineOf]
  simp only [List.cons_append, List.append_assoc] at hstrip
  simp only [parseLine]
  rw [hline, hstrip, splitOn_sep _ ha, splitOn_sep _ hb, splitOn_sep _ hc,
    splitOn_of_not_mem hd]

/-- A clean task's saved line contains no newline. -/
lemma newline_not_mem_lineOf {t : Task} (h : cleanTask t = true) : '\n' ∉ lineOf t := by
  obtain ⟨a, b, c, d⟩ := t
  simp only [cleanTask, cleanField, Bool.and_eq_true, Bool.not_eq_true',
    decide_eq_false_iff_not, decide_eq_true_eq] at h
  obtain ⟨⟨⟨⟨⟨-, ha⟩, ⟨-, hb⟩⟩, ⟨-, hc⟩⟩, ⟨-, hd⟩⟩, -⟩ := h
  intro hmem
  simp only [lineOf, List.mem_append, List.mem_cons] at hmem
  have hpipe : ('\n' : Char) ≠ '|' := by decide
  tauto

/-- Saving a list of clean tasks and splitting the file back into lines
recovers exactly those tasks. -/
lemma roundtrip_content (ts : List Task) (h : ts.all cleanTask = true) :
    ((save_tasks ts).splitOn '\n').filterMap parseLine = ts := by
  induction ts with
  | nil => decide
  | cons t ts ih =>
    simp only [List.all_cons, Bool.and_eq_true] at h
    have hsave : save_tasks (t :: ts) = lineOf t ++ '\n' :: save_tasks ts := by
      simp [save_tasks, List.append_assoc]
    rw [hsave, splitOn_sep _ (newline_not_mem_lineOf h.1)]
    simp only [List.filterMap_cons, parseLine_lineOf h.1, ih h.2]

/-- Whether a single line has exactly four pipe-separated fields decides
whether `parseLine` keeps it. -/
lemma parseLine_none_iff (line : Str) :
    parseLine line = none ↔ ((pyStrip line).splitOn '|').length ≠ 4 := by
  simp only [parseLine]
  rcases h : (pyStrip line).splitOn '|' with - | ⟨a, - | ⟨b, - | ⟨c, - | ⟨d, - | ⟨e, r⟩⟩⟩⟩⟩ <;>
    simp

/-! ### C1: round-trip persistence -/

/-- C1, counterexample.  The claim quantifies over every list of tasks
whose titles contain no pipe character.  A title with a leading space
contains no pipe, yet `load_tasks` strips each line before splitting it,
so the reloaded task's title loses the space and the round trip is not
the identity. -/
theorem c1_roundtrip_counterexample :
    load_tasks []
        (save_tasks [⟨(" a").data, ("Open").data, ("1").data, ("2").data⟩]) ≠
      [⟨(" a").data, ("Open").data, ("1").data, ("2").data⟩] := by
  decide

/-- C1, amended.  Saving a list of tasks and reloading the resulting
file contents yields an identical ordered sequence with identical field
values, provided each task is `cleanTask`-clean: its four fields contain
no pipe and no newline, and its saved line is unchanged by whitespace
stripping (in particular the title has no leading whitespace and
`status_updated_at` has no trailing whitespace). -/
theorem c1_roundtrip (ts : List Task) (h : ts.all cleanTask = true) :
    load_tasks [] (save_tasks ts) = ts := by
  rw [load_tasks_eq, roundtrip_content ts h, List.nil_append]

/-- C1, witness: the amended round trip on a concrete two-task list. -/
theorem c1_roundtrip_witness :
    ([⟨("Buy milk").data, ("Open").data, ("2024-01-02 03:04:05").data,
        ("2024-01-02 03:04:05").data⟩,
      ⟨("Ship v1").data, ("Done").data, ("2024-02-02 03:04:05").data,
        ("2024-03-02 03:04:05").data⟩].all cleanTask = true) ∧
    load_tasks []
        (save_tasks
          [⟨("Buy milk").data, ("Open").data, ("2024-01-02 03:04:05").data,
              ("2024-01-02 03:04:05").data⟩,
            ⟨("Ship v1").data, ("Done").data, ("2024-02-02 03:04:05").data,
              ("2024-03-02 03:04:05").data⟩]) =
      [⟨("Buy milk").data, ("Open").data, ("2024-01-02 03:04:05").data,
          ("2024-01-02 03:04:05").data⟩,
        ⟨("Ship v1").data, ("Done").data, ("2024-02-02 03:04:05").data,
          ("2024-03-02 03:04:05").data⟩] :=
  ⟨by decide, c1_roundtrip _ (by decide)⟩

/-! ### C7: lenient parsing -/

/-- C7.  Loading never fails: every line of the file that does not split
into exactly four pipe-separated fields is skipped, every line that does
is kept, in order, appended to the caller's list; and the concrete
scenario of one well-formed line plus one two-field line loads exactly
one task. -/
theorem c7_lenient_parse :
    (∀ (ts : List Task) (content : Str),
        load_tasks ts content = ts ++ (content.splitOn '\n').filterMap parseLine) ∧
    (∀ line : Str, parseLine line = none ↔ ((pyStrip line).splitOn '|').length ≠ 4) ∧
    (load_tasks [] (("a|Open|1|2\nb|c\n").data)).length = 1 :=
  ⟨load_tasks_eq, parseLine_none_iff, by decide⟩

/-! ### C10: load is additive -/

/-- C10.  `load_tasks` appends the file's parsed tasks to whatever list
is already in memory instead of replacing it, so a non-empty prior list
survives as a prefix, and loading the same contents twice duplicates
every parsed task. -/
theorem c10_load_additive :
    (∀ (ts : List Task) (content : Str),
        load_tasks ts content = ts ++ load_tasks [] content) ∧
    (∀ content : Str,
        load_tasks (load_tasks [] content) content =
          load_tasks [] content ++ load_tasks [] content) := by
  have key : ∀ (ts : List Task) (content : Str),
      load_tasks ts content = ts ++ load_tasks [] content := by
    intro ts content
    rw [load_tasks_eq, load_tasks_eq, List.nil_append]
  exact ⟨key, fun content => key _ content⟩

/-! ### Helper lemmas about the list mutations -/

/-- `setStatus` rewrites exactly the record at the given index. -/
lemma setStatus_eq (ts : List Task) (i : Nat) (t : Task) (hi : ts[i]? = some t)
    (ns now : Str) :
    setStatus ts i ns now = ts.take i ++ withStatus t ns now :: ts.drop (i + 1) := by
  induction ts generalizing i with
  | nil => simp at hi
  | cons x xs ih =>
    cases i with
    | zero =>
      rw [List.getElem?_cons_zero] at hi
      injection hi with hi
      subst hi
      simp [setStatus, withStatus]
    | succ n =>
      rw [List.getElem?_cons_succ] at hi
      simp [setStatus, ih n hi]

/-- `popAt` removes and returns exactly the record at the given index. -/
lemma popAt_eq (ts : List Task) (i : Nat) (t : Task) (hi : ts[i]? = some t) :
    popAt ts i = (ts.take i ++ ts.drop (i + 1), some t) := by
  induction ts generalizing i with
  | nil => simp at hi
  | cons x xs ih =>
    cases i with
    | zero =>
      rw [List.getElem?_cons_zero] at hi
      injection hi with hi
      subst hi
      simp [popAt]
    | succ n =>
      rw [List.getElem?_cons_succ] at hi
      simp [popAt, ih n hi]

/-- A list with an element at some index is not empty. -/
lemma isEmpty_false_of_lt {ts : List Task} (h : 0 < ts.length) : ts.isEmpty = false := by
  cases ts with
  | nil => simp at h
  | cons x xs => rfl

/-- `setStatus` keeps the status invariant when the new status is one of
the five labels. -/
lemma statusInv_setStatus (ts : List Task) (i : Nat) (ns now : Str)
    (hns : ns ∈ STATUSES) (h : statusInv ts = true) :
    statusInv (setStatus ts i ns now) = true := by
  induction ts generalizing i with
  | nil => simpa [setStatus] using h
  | cons x xs ih =>
    simp only [statusInv, List.all_cons, Bool.and_eq_true] at h
    cases i with
    | zero => simp [setStatus, statusInv, statusOk, hns, h.2]
    | succ n =>
      have := ih n h.2
      simp only [setStatus, statusInv, List.all_cons, Bool.and_eq_true]
      exact ⟨h.1, this⟩

/-! ### C5: add postcondition -/

/-- C5.  For every input title: if the title trims to nothing, `add_task`
changes nothing and prints nothing; otherwise it appends exactly one new
task — status `Open`, `created_at` and `status_updated_at` both the same
current instant — so the length grows by exactly one, and the printed
confirmation names the created task. -/
theorem c5_add_postcondition (ts : List Task) (rawTitle now : Str) :
    (pyStrip rawTitle = [] → add_task ts rawTitle now = (ts, [])) ∧
    (pyStrip rawTitle ≠ [] →
      add_task ts rawTitle now =
          (ts ++ [{ task := pyStrip rawTitle, status := ("Open").data, created_at := now,
                    status_updated_at := now }],
           [addedMessage (pyStrip rawTitle)]) ∧
        (add_task ts rawTitle now).1.length = ts.length + 1) := by
  constructor
  · intro h
    simp [add_task, h]
  · intro h
    cases hm : pyStrip rawTitle with
    | nil => exact absurd hm h
    | cons a l =>
      constructor
      · simp [add_task, hm]
      · simp [add_task, hm]

/-- C5, witness: a whitespace-only title is a no-op; a real title appends
one `Open` task with equal timestamps and a confirmation. -/
theorem c5_add_witness :
    (pyStrip (("   ").data) = [] ∧
      add_task [] (("   ").data) (("1").data) = ([], [])) ∧
    (pyStrip ((" Buy milk ").data) ≠ [] ∧
      add_task [] ((" Buy milk ").data) (("1").data) =
          ([{ task := ("Buy milk").data, status := ("Open").data, created_at := ("1").data,
              status_updated_at := ("1").data }],
           [addedMessage (("Buy milk").data)]) ∧
        (add_task [] ((" Buy milk ").data) (("1").data)).1.length = 0 + 1) :=
  ⟨⟨by decide, (c5_add_postcondition [] (("   ").data) (("1").data)).1 (by decide)⟩,
   ⟨by decide, (c5_add_postcondition [] ((" Buy milk ").data) (("1").data)).2 (by decide)⟩⟩

/-! ### C6: remove postcondition -/

/-- C6.  For a valid 1-based position `i + 1` (any `i < length`),
`remove_task` removes exactly the element at that position: the result
is the prefix before it followed by the suffix after it (so later tasks
shift down one position and earlier tasks are untouched), the length
drops by exactly one, and the removed task is handed back for the
printed confirmation. -/
theorem c6_remove_postcondition (ts : List Task) (inp : Nat → Str) (cur : Nat)
    (i : Nat) (t : Task) (hi : ts[i]? = some t)
    (hp : parseInt (inp cur) = some ((i : Int) + 1)) :
    remove_task ts inp cur = (ts.take i ++ ts.drop (i + 1), cur + 1, some t) ∧
    (remove_task ts inp cur).1.length + 1 = ts.length := by
  obtain ⟨hlen, -⟩ := List.getElem?_eq_some_iff.mp hi
  have he : ts.isEmpty = false := isEmpty_false_of_lt (Nat.lt_of_le_of_lt (Nat.zero_le i) hlen)
  have hidx : ((i : Int) + 1 - 1).toNat = i := by omega
  have hmain : remove_task ts inp cur = (ts.take i ++ ts.drop (i + 1), cur + 1, some t) := by
    unfold remove_task
    rw [if_neg (by simp [he])]
    simp only [hp]
    rw [if_pos (by constructor <;> omega), hidx, popAt_eq ts i t hi]
  refine ⟨hmain, ?_⟩
  rw [hmain]
  simp only [List.length_append, List.length_take, List.length_drop]
  omega

/-- C6, witness: removing position 2 from a concrete three-task list. -/
theorem c6_remove_witness :
    (([⟨("a").data, ("Open").data, ("1").data, ("1").data⟩,
        ⟨("b").data, ("Done").data, ("2").data, ("2").data⟩,
        ⟨("c").data, ("Review").data, ("3").data, ("3").data⟩] : List Task)[1]? =
        some ⟨("b").data, ("Done").data, ("2").data, ("2").data⟩ ∧
      parseInt ((fun _ : Nat => ("2").data) 0) = some ((1 : Int) + 1)) ∧
    (remove_task
          [⟨("a").data, ("Open").data, ("1").data, ("1").data⟩,
            ⟨("b").data, ("Done").data, ("2").data, ("2").data⟩,
            ⟨("c").data, ("Review").data, ("3").data, ("3").data⟩]
          (fun _ => ("2").data) 0 =
        ([⟨("a").data, ("Open").data, ("1").data, ("1").data⟩,
            ⟨("b").data, ("Done").data, ("2").data, ("2").data⟩,
            ⟨("c").data, ("Review").data, ("3").data, ("3").data⟩].take 1 ++
          [⟨("a").data, ("Open").data, ("1").data, ("1").data⟩,
            ⟨("b").data, ("Done").data, ("2").data, ("2").data⟩,
            ⟨("c").data, ("Review").data, ("3").data, ("3").data⟩].drop 2,
         1, some ⟨("b").data, ("Done").data, ("2").data, ("2").data⟩) ∧
      (remove_task
            [⟨("a").data, ("Open").data, ("1").data, ("1").data⟩,
              ⟨("b").data, ("Done").data, ("2").data, ("2").data⟩,
              ⟨("c").data, ("Review").data, ("3").data, ("3").data⟩]
            (fun _ => ("2").data) 0).1.length + 1 = 3) :=
  ⟨⟨by decide, by decide⟩,
    c6_remove_postcondition _ _ _ 1 _ (by decide) (by decide)⟩

/-! ### C3: status-change frame -/

/-- C3.  For every valid 1-based position `i + 1` and status chosen from
the fixed set by its 1-based index `j + 1`, `update_task_status` leaves
every other task alone and rewrites only the `status` and
`status_updated_at` of the addressed task, keeping its `task` title and
`created_at`; the new `status_updated_at` is the current clock value,
so under the assumption that the clock has not moved backwards since the
task's last status change (`hclock`) the new value is ≥ the old one. -/
theorem c3_update_status_frame (ts : List Task) (now : Str) (inp : Nat → Str) (cur : Nat)
    (i j : Nat) (t : Task) (hi : ts[i]? = some t)
    (hp : parseInt (inp cur) = some ((i : Int) + 1))
    (hj : j < STATUSES.length)
    (hs : parseInt (inp (cur + 1)) = some ((j : Int) + 1))
    (hclock : strLe t.status_updated_at now = true) :
    update_task_status ts now inp cur =
        (ts.take i ++ withStatus t (STATUSES.get ⟨j, hj⟩) now :: ts.drop (i + 1),
         cur + 2) ∧
    strLe t.status_updated_at
        (withStatus t (STATUSES.get ⟨j, hj⟩) now).status_updated_at = true := by
  obtain ⟨hlen, -⟩ := List.getElem?_eq_some_iff.mp hi
  have he : ts.isEmpty = false := isEmpty_false_of_lt (Nat.lt_of_le_of_lt (Nat.zero_le i) hlen)
  have hidx : ((i : Int) + 1 - 1).toNat = i := by omega
  have hjdx : ((j : Int) + 1 - 1).toNat = j := by omega
  constructor
  · unfold update_task_status
    rw [if_neg (by simp [he])]
    simp only [hp, hs]
    rw [if_pos (by constructor <;> omega), dif_pos (by constructor <;> omega)]
    simp only [hidx, hjdx]
    rw [setStatus_eq ts i t hi]
  · exact hclock

/-- C3, witness: set task 2 of a concrete two-task list to status 5
(`Done`). -/
theorem c3_update_status_witness :
    (([⟨("a").data, ("Open").data, ("1").data, ("1").data⟩,
        ⟨("b").data, ("Open").data, ("2").data, ("3").data⟩] : List Task)[1]? =
        some ⟨("b").data, ("Open").data, ("2").data, ("3").data⟩ ∧
      parseInt ((fun n : Nat => if n = 0 then ("2").data else ("5").data) 0) =
        some ((1 : Int) + 1) ∧
      4 < STATUSES.length ∧
      parseInt ((fun n : Nat => if n = 0 then ("2").data else ("5").data) (0 + 1)) =
        some ((4 : Int) + 1) ∧
      strLe (("3").data) (("9").data) = true) ∧
    (update_task_status
          [⟨("a").data, ("Open").data, ("1").data, ("1").data⟩,
            ⟨("b").data, ("Open").data, ("2").data, ("3").data⟩]
          (("9").data) (fun n : Nat => if n = 0 then ("2").data else ("5").data) 0 =
        ([⟨("a").data, ("Open").data, ("1").data, ("1").data⟩,
            ⟨("b").data, ("Open").data, ("2").data, ("3").data⟩].take 1 ++
          withStatus ⟨("b").data, ("Open").data, ("2").data, ("3").data⟩
              (STATUSES.get ⟨4, by decide⟩) (("9").data) ::
            [⟨("a").data, ("Open").data, ("1").data, ("1").data⟩,
              ⟨("b").data, ("Open").data, ("2").data, ("3").data⟩].drop 2,
         2) ∧
      strLe (("3").data)
        (withStatus ⟨("b").data, ("Open").data, ("2").data, ("3").data⟩
            (STATUSES.get ⟨4, by decide⟩) (("9").data)).status_updated_at = true) :=
  ⟨⟨by decide, by decide, by decide, by decide, by decide⟩,
    c3_update_status_frame
      [⟨("a").data, ("Open").data, ("1").data, ("1").data⟩,
        ⟨("b").data, ("Open").data, ("2").data, ("3").data⟩]
      (("9").data) (fun n : Nat => if n = 0 then ("2").data else ("5").data) 0 1 4
      ⟨("b").data, ("Open").data, ("2").data, ("3").data⟩
      (by decide) (by decide) (by decide) (by decide) (by decide)⟩

/-! ### C4: out-of-range requests are no-ops -/

/-- C4.  A parsed 1-based position outside `[1, length]` leaves the list
untouched for both `remove_task` and `update_task_status` (for the empty
list every position is out of range and both are also no-ops), and a
parsed in-range position followed by an out-of-range status selection
also leaves the list untouched. -/
theorem c4_out_of_range_noop (ts : List Task) (now : Str) (inp : Nat → Str) (cur : Nat) :
    (∀ pos : Int, parseInt (inp cur) = some pos → pos < 1 ∨ (ts.length : Int) < pos →
        (remove_task ts inp cur).1 = ts ∧ (update_task_status ts now inp cur).1 = ts) ∧
    (∀ pos s : Int, parseInt (inp cur) = some pos → 1 ≤ pos → pos ≤ (ts.length : Int) →
        parseInt (inp (cur + 1)) = some s → s < 1 ∨ (STATUSES.length : Int) < s →
        (update_task_status ts now inp cur).1 = ts) := by
  constructor
  · intro pos hp hout
    by_cases he : ts.isEmpty = true
    · exact ⟨by simp [remove_task, he], by simp [update_task_status, he]⟩
    · have hcond : ¬(0 ≤ pos - 1 ∧ pos - 1 < (ts.length : Int)) := by omega
      constructor
      · unfold remove_task
        rw [if_neg he]
        simp only [hp]
        rw [if_neg hcond]
      · unfold update_task_status
        rw [if_neg he]
        simp only [hp]
        rw [if_neg hcond]
  · intro pos s hp h1 h2 hs hout
    have hlen : 0 < ts.length := by
      cases ts with
      | nil => exfalso; simp at h2; omega
      | cons x xs => simp
    unfold update_task_status
    rw [if_neg (by simp [isEmpty_false_of_lt hlen])]
    simp only [hp, hs]
    rw [if_pos (by constructor <;> omega), dif_neg (by omega)]

/-- C4, witness: on a concrete 2-task list, `remove` at position 5,
`update_status` at position 0, and an in-range update with status
selection 6 all leave the list unchanged. -/
theorem c4_out_of_range_witness :
    (parseInt ((fun _ : Nat => ("5").data) 0) = some (5 : Int) ∧
      ((5 : Int) < 1 ∨
        ((([⟨("a").data, ("Open").data, ("1").data, ("1").data⟩,
            ⟨("b").data, ("Done").data, ("2").data, ("2").data⟩] : List Task).length : Int) <
          5)) ∧
      (remove_task
            [⟨("a").data, ("Open").data, ("1").data, ("1").data⟩,
              ⟨("b").data, ("Done").data, ("2").data, ("2").data⟩]
            (fun _ => ("5").data) 0).1 =
          [⟨("a").data, ("Open").data, ("1").data, ("1").data⟩,
            ⟨("b").data, ("Done").data, ("2").data, ("2").data⟩] ∧
        (update_task_status
            [⟨("a").data, ("Open").data, ("1").data, ("1").data⟩,
              ⟨("b").data, ("Done").data, ("2").data, ("2").data⟩]
            (("9").data) (fun _ => ("5").data) 0).1 =
          [⟨("a").data, ("Open").data, ("1").data, ("1").data⟩,
            ⟨("b").data, ("Done").data, ("2").data, ("2").data⟩]) ∧
    (parseInt ((fun _ : Nat => ("0").data) 0) = some (0 : Int) ∧
      ((0 : Int) < 1 ∨
        ((([⟨("a").data, ("Open").data, ("1").data, ("1").data⟩,
            ⟨("b").data, ("Done").data, ("2").data, ("2").data⟩] : List Task).length : Int) <
          0)) ∧
      (update_task_status
          [⟨("a").data, ("Open").data, ("1").data, ("1").data⟩,
            ⟨("b").data, ("Done").data, ("2").data, ("2").data⟩]
          (("9").data) (fun _ => ("0").data) 0).1 =
        [⟨("a").data, ("Open").data, ("1").data, ("1").data⟩,
          ⟨("b").data, ("Done").data, ("2").data, ("2").data⟩]) ∧
    (parseInt ((fun n : Nat => if n = 0 then ("1").data else ("6").data) 0) = some (1 : Int) ∧
      parseInt ((fun n : Nat => if n = 0 then ("1").data else ("6").data) (0 + 1)) =
        some (6 : Int) ∧
      ((6 : Int) < 1 ∨ (STATUSES.length : Int) < 6) ∧
      (update_task_status
          [⟨("a").data, ("Open").data, ("1").data, ("1").data⟩,
            ⟨("b").data, ("Done").data, ("2").data, ("2").data⟩]
          (("9").data) (fun n : Nat => if n = 0 then ("1").data else ("6").data) 0).1 =
        [⟨("a").data, ("Open").data, ("1").data, ("1").data⟩,
          ⟨("b").data, ("Done").data, ("2").data, ("2").data⟩]) :=
  ⟨⟨by decide, by decide,
      ((c4_out_of_range_noop
          [⟨("a").data, ("Open").data, ("1").data, ("1").data⟩,
            ⟨("b").data, ("Done").data, ("2").data, ("2").data⟩]
          (("9").data) (fun _ => ("5").data) 0).1 5 (by decide) (by decide)).1,
      ((c4_out_of_range_noop
          [⟨("a").data, ("Open").data, ("1").data, ("1").data⟩,
            ⟨("b").data, ("Done").data, ("2").data, ("2").data⟩]
          (("9").data) (fun _ => ("5").data) 0).1 5 (by decide) (by decide)).2⟩,
    ⟨by decide, by decide,
      ((c4_out_of_range_noop
          [⟨("a").data, ("Open").data, ("1").data, ("1").data⟩,
            ⟨("b").data, ("Done").data, ("2").data, ("2").data⟩]
          (("9").data) (fun _ => ("0").data) 0).1 0 (by decide) (by decide)).2⟩,
    ⟨by decide, by decide, by decide,
      (c4_out_of_range_noop
          [⟨("a").data, ("Open").data, ("1").data, ("1").data⟩,
            ⟨("b").data, ("Done").data, ("2").data, ("2").data⟩]
          (("9").data) (fun n : Nat => if n = 0 then ("1").data else ("6").data) 0).2 1 6
        (by decide) (by decide) (by decide) (by decide) (by decide)⟩⟩

/-! ### C2: status-set invariant -/

/-- C2, counterexample.  `load_tasks` performs no validation of the
status field, so a file line whose status is not one of the five labels
loads into the in-memory list unchanged: the invariant is not preserved
by load. -/
theorem c2_status_counterexample :
    load_tasks [] (("a|Banana|1|2\n").data) =
        [⟨("a").data, ("Banana").data, ("1").data, ("2").data⟩] ∧
    statusInv (load_tasks [] (("a|Banana|1|2\n").data)) = false := by
  decide

/-- C2, amended.  The status-set invariant (every task's status is one
of the five labels) is established by `add_task` (`Open`) and preserved
by `update_task_status` (which only ever writes an element of
`STATUSES`); `load_tasks` preserves it only under the additional
assumption that the file's well-formed lines all carry one of the five
labels, since it does not validate the field. -/
theorem c2_status_invariant :
    (∀ (ts : List Task) (rawTitle now : Str),
        statusInv ts = true → statusInv (add_task ts rawTitle now).1 = true) ∧
    (∀ (ts : List Task) (now : Str) (inp : Nat → Str) (cur : Nat),
        statusInv ts = true → statusInv (update_task_status ts now inp cur).1 = true) ∧
    (∀ (ts : List Task) (content : Str),
        statusInv ts = true →
        statusInv ((content.splitOn '\n').filterMap parseLine) = true →
        statusInv (load_tasks ts content) = true) := by
  refine ⟨?_, ?_, ?_⟩
  · intro ts rawTitle now h
    by_cases hn : (pyStrip rawTitle).isEmpty = true
    · simpa [add_task, hn] using h
    · have hnew : statusOk ⟨pyStrip rawTitle, ("Open").data, now, now⟩ = true := by
        simp [statusOk, STATUSES]
      have hgoal : (add_task ts rawTitle now).1 =
          ts ++ [⟨pyStrip rawTitle, ("Open").data, now, now⟩] := by
        simp [add_task, hn]
      rw [hgoal]
      simp only [statusInv, List.all_append, Bool.and_eq_true]
      exact ⟨h, by simp [hnew]⟩
  · intro ts now inp cur h
    unfold update_task_status
    split
    · simpa using h
    · split
      · simpa using h
      · split
        · split
          · simpa using h
          · split
            · exact statusInv_setStatus ts _ _ now (List.get_mem _ _ _) h
            · simpa using h
        · simpa using h
  · intro ts content h hparsed
    rw [load_tasks_eq]
    simp only [statusInv, List.all_append, Bool.and_eq_true]
    exact ⟨h, hparsed⟩

/-- C2, witness: all three preservation statements at concrete
inputs. -/
theorem c2_status_witness :
    (statusInv [⟨("a").data, ("Open").data, ("1").data, ("1").data⟩] = true ∧
      statusInv
        (add_task [⟨("a").data, ("Open").data, ("1").data, ("1").data⟩] (("b").data)
            (("2").data)).1 = true) ∧
    (statusInv [⟨("a").data, ("Open").data, ("1").data, ("1").data⟩] = true ∧
      statusInv
        (update_task_status [⟨("a").data, ("Open").data, ("1").data, ("1").data⟩]
            (("9").data) (fun n : Nat => if n = 0 then ("1").data else ("2").data) 0).1 =
        true) ∧
    (statusInv [⟨("a").data, ("Open").data, ("1").data, ("1").data⟩] = true ∧
      statusInv (((("b|Done|1|2\n").data).splitOn '\n').filterMap parseLine) = true ∧
      statusInv
        (load_tasks [⟨("a").data, ("Open").data, ("1").data, ("1").data⟩]
          (("b|Done|1|2\n").data)) = true) :=
  ⟨⟨by decide,
      c2_status_invariant.1 [⟨("a").data, ("Open").data, ("1").data, ("1").data⟩]
        (("b").data) (("2").data) (by decide)⟩,
    ⟨by decide,
      c2_status_invariant.2.1 [⟨("a").data, ("Open").data, ("1").data, ("1").data⟩]
        (("9").data) (fun n : Nat => if n = 0 then ("1").data else ("2").data) 0
        (by decide)⟩,
    ⟨by decide, by decide,
      c2_status_invariant.2.2 [⟨("a").data, ("Open").data, ("1").data, ("1").data⟩]
        (("b|Done|1|2\n").data) (by decide) (by decide)⟩⟩

/-! ### C8: default file location -/

/-- C8, counterexample.  `main` calls `load_tasks()` and `save_tasks()`
with the default argument `"tasks.txt"`, a relative path that the
operating system resolves against the process working directory; it
never calls `handle_file`.  With working directory `/home/user` and
script directory `/opt/app`, the path actually opened differs from the
path the file-ensuring helper would produce. -/
theorem c8_file_location_counterexample :
    resolvePath (("/home/user").data) main_file_arg = ("/home/user/tasks.txt").data ∧
    handle_file (("/opt/app").data) (("tasks.txt").data) = ("/opt/app/tasks.txt").data ∧
    resolvePath (("/home/user").data) main_file_arg ≠
      handle_file (("/opt/app").data) (("tasks.txt").data) := by
  decide

/-- C8, amended.  The file read at startup and written at exit is the
fixed filename `tasks.txt` resolved relative to the process working
directory, because `main` passes the bare default argument to
`load_tasks` and `save_tasks` and never uses the path returned by
`handle_file`; whenever the working directory differs from the script's
directory, the path used differs from the helper's path. -/
theorem c8_file_location :
    (∀ cwd : Str,
        resolvePath cwd main_file_arg = os_path_join cwd (("tasks.txt").data)) ∧
    (∀ cwd script_dir : Str, cwd ≠ script_dir →
        resolvePath cwd main_file_arg ≠ handle_file script_dir (("tasks.txt").data)) := by
  constructor
  · intro cwd
    rfl
  · intro cwd sd hne heq
    have h1 : resolvePath cwd main_file_arg = cwd ++ '/' :: ("tasks.txt").data := rfl
    have h2 : handle_file sd (("tasks.txt").data) = sd ++ '/' :: ("tasks.txt").data := rfl
    rw [h1, h2] at heq
    exact hne (List.append_inj' heq rfl).1

/-- C8, witness: the amended statement at concrete directories. -/
theorem c8_file_location_witness :
    resolvePath (("/a").data) main_file_arg = os_path_join (("/a").data) (("tasks.txt").data) ∧
    ((("/a").data : Str) ≠ ("/b").data ∧
      resolvePath (("/a").data) main_file_arg ≠ handle_file (("/b").data) (("tasks.txt").data)) :=
  ⟨c8_file_location.1 (("/a").data),
    by decide,
    c8_file_location.2 (("/a").data) (("/b").data) (by decide)⟩

/-! ### C9: menu-loop safety -/

/-- A `menuStep` that exits was dispatched from the stripped choice 6,
and its only effect is rewriting the file from the current task list. -/
lemma menuStep_exit {clock inp : Nat → Str} {cur : Nat} {st : AppState}
    (h : (menuStep clock inp cur st).2.2 = true) :
    pyStrip (inp cur) = ("6").data ∧
    menuStep clock inp cur st = (⟨st.tasks, save_tasks st.tasks⟩, cur + 1, true) := by
  simp only [menuStep] at h ⊢
  split_ifs at h ⊢ with h1 h2 h3 h4 h5 h6
  all_goals simp_all

/-- If the menu loop reports a normal exit, the final file contents are
the serialization of the final task list: the save ran last. -/
lemma runMain_exit (clock inp : Nat → Str) :
    ∀ (fuel cur : Nat) (st : AppState), (runMain clock inp fuel cur st).2 = true →
      (runMain clock inp fuel cur st).1.file =
        save_tasks (runMain clock inp fuel cur st).1.tasks := by
  intro fuel
  induction fuel with
  | zero => intro cur st h; simp [runMain] at h
  | succ n ih =>
    intro cur st h
    simp only [runMain] at h ⊢
    by_cases hr : (menuStep clock inp cur st).2.2 = true
    · obtain ⟨-, hstep⟩ := menuStep_exit hr
      rw [if_pos hr] at h ⊢
      rw [hstep]
    · rw [if_neg hr] at h ⊢
      exact ih _ _ h

/-- C9.  Any choice other than the six menu entries falls through every
branch: the state is untouched, no further input is consumed, and the
loop continues (the embedding is a total function, mirroring that this
path raises no exception).  The step exits only when the stripped choice
is `6`, and that step leaves the task list alone and rewrites the file
from it; consequently whenever a run of the loop reports a normal exit,
the final file holds the saved final task list. -/
theorem c9_loop_safety :
    (∀ (clock inp : Nat → Str) (cur : Nat) (st : AppState),
        pyStrip (inp cur) ∉ validChoices →
        menuStep clock inp cur st = (st, cur + 1, false)) ∧
    (∀ (clock inp : Nat → Str) (cur : Nat) (st : AppState),
        (menuStep clock inp cur st).2.2 = true →
        pyStrip (inp cur) = ("6").data ∧
        (menuStep clock inp cur st).1.tasks = st.tasks ∧
        (menuStep clock inp cur st).1.file = save_tasks st.tasks) ∧
    (∀ (clock inp : Nat → Str) (fuel cur : Nat) (st : AppState),
        (runMain clock inp fuel cur st).2 = true →
        (runMain clock inp fuel cur st).1.file =
          save_tasks (runMain clock inp fuel cur st).1.tasks) := by
  refine ⟨?_, ?_, ?_⟩
  · intro clock inp cur st h
    have h1 : pyStrip (inp cur) ≠ ("1").data := fun e => h (by rw [e]; decide)
    have h2 : pyStrip (inp cur) ≠ ("2").data := fun e => h (by rw [e]; decide)
    have h3 : pyStrip (inp cur) ≠ ("3").data := fun e => h (by rw [e]; decide)
    have h4 : pyStrip (inp cur) ≠ ("4").data := fun e => h (by rw [e]; decide)
    have h5 : pyStrip (inp cur) ≠ ("5").data := fun e => h (by rw [e]; decide)
    have h6 : pyStrip (inp cur) ≠ ("6").data := fun e => h (by rw [e]; decide)
    simp only [menuStep]
    rw [if_neg h1, if_neg h2, if_neg h3, if_neg h4, if_neg h5, if_neg h6]
  · intro clock inp cur st h
    obtain ⟨h6, hstep⟩ := menuStep_exit h
    refine ⟨h6, ?_, ?_⟩ <;> rw [hstep]
  · intro clock inp fuel cur st h
    exact runMain_exit clock inp fuel cur st h

/-- C9, witness: an invalid choice is a no-op that keeps looping; a `6`
run saves and exits with the file holding the saved list. -/
theorem c9_loop_safety_witness :
    (pyStrip ((fun _ : Nat => ("abc").data) 0) ∉ validChoices ∧
      menuStep (fun _ => ([] : Str)) (fun _ => ("abc").data) 0
          ⟨[⟨("a").data, ("Open").data, ("1").data, ("1").data⟩], []⟩ =
        (⟨[⟨("a").data, ("Open").data, ("1").data, ("1").data⟩], []⟩, 1, false)) ∧
    ((menuStep (fun _ => ([] : Str)) (fun _ => ("6").data) 0
          ⟨[⟨("a").data, ("Open").data, ("1").data, ("1").data⟩], []⟩).2.2 = true ∧
      pyStrip ((fun _ : Nat => ("6").data) 0) = ("6").data ∧
      (menuStep (fun _ => ([] : Str)) (fun _ => ("6").data) 0
          ⟨[⟨("a").data, ("Open").data, ("1").data, ("1").data⟩], []⟩).1.tasks =
        [⟨("a").data, ("Open").data, ("1").data, ("1").data⟩] ∧
      (menuStep (fun _ => ([] : Str)) (fun _ => ("6").data) 0
          ⟨[⟨("a").data, ("Open").data, ("1").data, ("1").data⟩], []⟩).1.file =
        save_tasks [⟨("a").data, ("Open").data, ("1").data, ("1").data⟩]) ∧
    ((runMain (fun _ => ([] : Str)) (fun _ => ("6").data) 1 0
          ⟨[⟨("a").data, ("Open").data, ("1").data, ("1").data⟩], []⟩).2 = true ∧
      (runMain (fun _ => ([] : Str)) (fun _ => ("6").data) 1 0
          ⟨[⟨("a").data, ("Open").data, ("1").data, ("1").data⟩], []⟩).1.file =
        save_tasks
          (runMain (fun _ => ([] : Str)) (fun _ => ("6").data) 1 0
              ⟨[⟨("a").data, ("Open").data, ("1").data, ("1").data⟩], []⟩).1.tasks) :=
  ⟨⟨by decide,
      c9_loop_safety.1 (fun _ => ([] : Str)) (fun _ => ("abc").data) 0
        ⟨[⟨("a").data, ("Open").data, ("1").data, ("1").data⟩], []⟩ (by decide)⟩,
    ⟨by decide,
      c9_loop_safety.2.1 (fun _ => ([] : Str)) (fun _ => ("6").data) 0
        ⟨[⟨("a").data, ("Open").data, ("1").data, ("1").data⟩], []⟩ (by decide)⟩,
    ⟨by decide,
      c9_loop_safety.2.2 (fun _ => ([] : Str)) (fun _ => ("6").data) 1 0
        ⟨[⟨("a").data, ("Open").data, ("1").data, ("1").data⟩], []⟩ (by decide)⟩⟩

example : pyStrip (("  a b ").data) = ("a b").data := by decide
example : parseInt ((" -12 ").data) = some (-12) := by decide
example : parseInt (("x2").data) = none := by decide
example : load_tasks [] (save_tasks [⟨("a").data, ("Open").data, ("1").data, ("2").data⟩]) =
    [⟨("a").data, ("Open").data, ("1").data, ("2").data⟩] := by decide

end TasksApp
